import Mathlib

/-!
Verification of the Travolo recommendation core.

Shallow embedding conventions:
* JavaScript numbers are modelled as `ℚ` (exact arithmetic); the square root
  appearing in `cosineSimilarity` forces that one function into `ℝ`.
* JavaScript objects used as string-keyed maps are modelled as association
  lists `List (String × α)` in insertion order; `Object.entries` iteration
  order is the list order.
* Absent (`undefined`) optional fields are `Option.none`; the `?? 0` idiom
  is `Option.getD 0`.
-/

/-- Clamp to the preference scale, from `Math.max(1, Math.min(5, adjusted))`
in recommendationAlgorithm.js. -/
def clamp1to5 (x : ℚ) : ℚ := max 1 (min 5 x)

/-- JavaScript `Math.round` (round half towards positive infinity). -/
def jsRound (x : ℚ) : ℤ := ⌊x + 1 / 2⌋

/-- Embedding of `mapScoreToConfidence` from recommendationAlgorithm.js
(lines 185-203).  The NaN/undefined guard of the source is vacuous in the
`ℚ` model. -/
def mapScoreToConfidence (score : ℚ) : ℤ :=
  let s := max 0 (min 1 score)
  if 0.80 ≤ s then jsRound (90 + 10 * (s - 0.80) / 0.20)
  else if 0.60 ≤ s then jsRound (70 + 19 * (s - 0.60) / 0.20)
  else if 0.40 ≤ s then jsRound (50 + 19 * (s - 0.40) / 0.20)
  else jsRound (49 * s / 0.40)

/-- One row of the reshaped similarity matrix `{ itemId: [ {id, sim}, ... ] }`
from collaborativeFiltering.js. -/
structure Neighbour where
  id : String
  sim : ℚ
deriving DecidableEq

/-- The reshaped item similarity structure of collaborativeFiltering.js:
item id mapped to its neighbour list. -/
abbrev SimilarityData := List (String × List Neighbour)

/-- A catalog item (destination row); only the fields the verified core
reads.  Theme scores may be absent (the source defaults them to 0). -/
structure Destination where
  id : String
  culture : Option ℚ := none
  adventure : Option ℚ := none
  nature : Option ℚ := none
  beaches : Option ℚ := none
  nightlife : Option ℚ := none
  cuisine : Option ℚ := none
  wellness : Option ℚ := none
  urban : Option ℚ := none
  seclusion : Option ℚ := none
deriving DecidableEq

/-- The user preference profile; only the fields the verified core reads.
`destinationRatings` maps destination id to the rating string
(`"like"` / `"dislike"`).  `destinationAnalysis` is written by
`calculateRecommendations`: `none` models an absent key, `some none` the
JavaScript `null`, `some (some l)` the analysis object (theme-ordered). -/
structure UserPreferences where
  culture : Option ℚ := none
  adventure : Option ℚ := none
  nature : Option ℚ := none
  beaches : Option ℚ := none
  nightlife : Option ℚ := none
  cuisine : Option ℚ := none
  wellness : Option ℚ := none
  urban : Option ℚ := none
  seclusion : Option ℚ := none
  destinationRatings : Option (List (String × String)) := none
  destinationAnalysis : Option (Option (List ℚ)) := none
deriving DecidableEq

/-- Lookup in a string-keyed association list (JavaScript object access). -/
def assocFind (k : String) (l : List (String × α)) : Option α :=
  (l.find? (fun e => e.1 == k)).map (·.2)

/-- The `Object.entries(userPreferences.destinationRatings)` iteration;
an absent ratings object iterates over nothing. -/
def ratingEntries (p : UserPreferences) : List (String × String) :=
  p.destinationRatings.getD []

/-- Liked destination ids, in ratings iteration order
(collaborativeFiltering.js lines 82-94). -/
def likedIds (p : UserPreferences) : List String :=
  ((ratingEntries p).filter (fun e => e.2 == "like")).map (·.1)

/-- All rated destination ids (collaborativeFiltering.js `ratedDestIds`). -/
def ratedIds (p : UserPreferences) : List String :=
  (ratingEntries p).map (·.1)

/-- The numerator/denominator accumulation of the inner loop of
`calculateCollaborativeScores` (collaborativeFiltering.js lines 116-133). -/
def collabPair (sim : SimilarityData) (liked : List String) (candidateId : String) : ℚ × ℚ :=
  liked.foldl
    (fun acc likedId =>
      let neighboursOfLikedItem := (assocFind likedId sim).getD []
      let similarity :=
        match neighboursOfLikedItem.find? (fun n => n.id == candidateId) with
        | some e => e.sim
        | none => 0
      if 0 < similarity then (acc.1 + similarity, acc.2 + similarity) else acc)
    (0, 0)

/-- Embedding of `calculateCollaborativeScores` from collaborativeFiltering.js
(lines 62-148).  The similarity structure, fetched externally in the source,
is passed as a parameter; a failed fetch corresponds to `sim = []`. -/
def calculateCollaborativeScores (sim : SimilarityData) (p : UserPreferences)
    (dests : List Destination) : List (String × ℚ) :=
  if sim.isEmpty then []
  else if (likedIds p).isEmpty then []
  else
    dests.filterMap (fun d =>
      if (ratedIds p).contains d.id then none
      else
        let nd := collabPair sim (likedIds p) d.id
        let finalScore := if 0 < nd.2 then nd.1 / nd.2 else 0
        if 0 < finalScore then some (d.id, finalScore) else none)

/-- The 9-dimensional feature vector of a destination, with missing themes
defaulted to 0 (recommendationAlgorithm.js lines 235-245). -/
def destFeatures (d : Destination) : List ℚ :=
  [d.culture.getD 0, d.adventure.getD 0, d.nature.getD 0, d.beaches.getD 0,
   d.nightlife.getD 0, d.cuisine.getD 0, d.wellness.getD 0, d.urban.getD 0,
   d.seclusion.getD 0]

/-- Collect liked and disliked destination feature vectors from the rating
entries (recommendationAlgorithm.js lines 226-261); unknown ids are skipped. -/
def collectRatedFeatures (p : UserPreferences) (dests : List Destination) :
    List (List ℚ) × List (List ℚ) :=
  (ratingEntries p).foldl
    (fun acc e =>
      match dests.find? (fun d => d.id == e.1) with
      | some d =>
        if e.2 == "like" then (acc.1 ++ [destFeatures d], acc.2)
        else if e.2 == "dislike" then (acc.1, acc.2 ++ [destFeatures d])
        else acc
      | none => acc)
    ([], [])

/-- Embedding of `averageVector` (recommendationAlgorithm.js lines 146-164):
element-wise sum over vectors matching the first vector's length, divided by
the total vector count. -/
def averageVector (vectors : List (List ℚ)) : Option (List ℚ) :=
  match vectors with
  | [] => none
  | v0 :: _ =>
    let n := v0.length
    let sumVector := vectors.foldl
      (fun acc v => if v.length = n then acc.zipWith (· + ·) v else acc)
      (List.replicate n 0)
    some (sumVector.map (fun s => s / (vectors.length : ℚ)))

/-- The ceiling normalization of one delta dimension
(recommendationAlgorithm.js lines 284-292). -/
def normalizeDelta (delta : ℚ) : ℚ :=
  if delta = 0 then 0
  else if 0 < delta then ((⌈delta⌉ : ℤ) : ℚ)
  else -((⌈|delta|⌉ : ℤ) : ℚ)

/-- The normalized adjustment vector: liked mean minus disliked mean (zero
vectors when a side is empty), each dimension ceiling-normalized
(recommendationAlgorithm.js lines 263-292). -/
def normalizedAdjustments (p : UserPreferences) (dests : List Destination) : List ℚ :=
  let features := collectRatedFeatures p dests
  let vecLike := (averageVector features.1).getD (List.replicate 9 0)
  let vecDislike := (averageVector features.2).getD (List.replicate 9 0)
  let deltaVec := vecLike.zipWith (· - ·) vecDislike
  deltaVec.map normalizeDelta

/-- The in-place profile mutation performed by `calculateRecommendations`
(recommendationAlgorithm.js lines 318-362): the analysis object is stored on
the profile (or `null` when no rated destination was found), and when it is
non-null every theme score is overwritten with the clamped adjusted value. -/
def applyFeedbackAdjustments (p : UserPreferences) (dests : List Destination) :
    UserPreferences :=
  let features := collectRatedFeatures p dests
  let adjustments := normalizedAdjustments p dests
  if features.1 ≠ [] ∨ features.2 ≠ [] then
    { p with
      destinationAnalysis := some (some adjustments)
      culture := some (clamp1to5 (p.culture.getD 0 + adjustments.getD 0 0))
      adventure := some (clamp1to5 (p.adventure.getD 0 + adjustments.getD 1 0))
      nature := some (clamp1to5 (p.nature.getD 0 + adjustments.getD 2 0))
      beaches := some (clamp1to5 (p.beaches.getD 0 + adjustments.getD 3 0))
      nightlife := some (clamp1to5 (p.nightlife.getD 0 + adjustments.getD 4 0))
      cuisine := some (clamp1to5 (p.cuisine.getD 0 + adjustments.getD 5 0))
      wellness := some (clamp1to5 (p.wellness.getD 0 + adjustments.getD 6 0))
      urban := some (clamp1to5 (p.urban.getD 0 + adjustments.getD 7 0))
      seclusion := some (clamp1to5 (p.seclusion.getD 0 + adjustments.getD 8 0)) }
  else { p with destinationAnalysis := some none }

/-- The user theme vector read after the feedback adjustment
(recommendationAlgorithm.js lines 365-375). -/
def themeVector (p : UserPreferences) : List ℚ :=
  [p.culture.getD 0, p.adventure.getD 0, p.nature.getD 0, p.beaches.getD 0,
   p.nightlife.getD 0, p.cuisine.getD 0, p.wellness.getD 0, p.urban.getD 0,
   p.seclusion.getD 0]

/-- Final state of the caller's profile after `calculateRecommendations`
(explicit state passing of its in-place mutation): the early return for an
empty catalog (line 222) leaves the profile untouched. -/
def calculateRecommendationsPrefs (p : UserPreferences) (dests : List Destination) :
    UserPreferences :=
  if dests.isEmpty then p else applyFeedbackAdjustments p dests

/-- The optional sub-scores of one destination's score record
(`themeScore` … `distanceScore`); a sub-score is absent when its inputs
were unavailable. -/
structure SubScores where
  themeScore : Option ℚ := none
  climateScore : Option ℚ := none
  budgetScore : Option ℚ := none
  regionScore : Option ℚ := none
  durationMatchScore : Option ℚ := none
  distanceScore : Option ℚ := none
deriving DecidableEq

/-- The content-blend loop shared by both scorers: fold over the weighted
sub-scores accumulating `weightedSum` and `weightSum`, then divide
(zero-guarded). -/
def blendLoop (entries : List (ℚ × Option ℚ)) : ℚ :=
  let acc := entries.foldl
    (fun acc e =>
      match e.2 with
      | some v => (acc.1 + e.1 * v, acc.2 + e.1)
      | none => acc)
    ((0 : ℚ), (0 : ℚ))
  if 0 < acc.2 then acc.1 / acc.2 else 0

/-- The content blend of `calculateRecommendations`
(recommendationAlgorithm.js lines 513-527), with its weight table. -/
def contentBlendRA (s : SubScores) : ℚ :=
  blendLoop [(0.35, s.themeScore), (0.20, s.climateScore), (0.10, s.budgetScore),
             (0.20, s.regionScore), (0.10, s.durationMatchScore), (0.05, s.distanceScore)]

/-- The content blend of `calculateContentScores`
(contentFiltering.js lines 183-296), with its weight table. -/
def contentBlendCF (s : SubScores) : ℚ :=
  blendLoop [(0.35, s.themeScore), (0.15, s.climateScore), (0.10, s.budgetScore),
             (0.25, s.regionScore), (0.10, s.durationMatchScore), (0.05, s.distanceScore)]

/-- Spec-side weighted sum over the sub-scores that are present. -/
def specWeightedSum (entries : List (ℚ × Option ℚ)) : ℚ :=
  (entries.filterMap (fun e => e.2.map (fun v => e.1 * v))).sum

/-- Spec-side sum of the weights of the sub-scores that are present. -/
def specWeightTotal (entries : List (ℚ × Option ℚ)) : ℚ :=
  (entries.filterMap (fun e => e.2.map (fun _ => e.1))).sum

/-- Modelled from the claim's words: content score as the weighted sum of the
present sub-scores with weights theme 0.35, climate 0.20, budget 0.10,
region 0.20, durationMatch 0.10, distance 0.05, divided by the sum of the
present weights, and 0 when none is present. -/
def contentScoreSpec (s : SubScores) : ℚ :=
  let entries := [((0.35 : ℚ), s.themeScore), (0.20, s.climateScore), (0.10, s.budgetScore),
                  (0.20, s.regionScore), (0.10, s.durationMatchScore), (0.05, s.distanceScore)]
  if 0 < specWeightTotal entries then specWeightedSum entries / specWeightTotal entries else 0

/-- ASCII lowercasing, per character (the JavaScript `toLowerCase` on the
duration labels involved). -/
def lowerString (s : String) : String :=
  String.mk (s.data.map Char.toLower)

/-- JavaScript `String.replace(' ', '-')` replaces only the first space. -/
def replaceFirstSpace : List Char → List Char
  | [] => []
  | c :: cs => if c = ' ' then '-' :: cs else c :: replaceFirstSpace cs

/-- Duration-label normalization used throughout the source:
lower-case, first space to hyphen. -/
def normalizeDurationLabel (s : String) : String :=
  String.mk (replaceFirstSpace (lowerString s).data)

/-- Embedding of `mapDurationToDays` (recommendationAlgorithm.js lines 82-92). -/
def mapDurationToDays (durationLabel : String) : Option ℕ :=
  let l := normalizeDurationLabel durationLabel
  if l == "day-trip" then some 1
  else if l == "weekend" then some 2
  else if l == "short-trip" then some 4
  else if l == "one-week" then some 7
  else if l == "long-trip" then some 10
  else none

/-- The distance-threshold table with its fallback to the 10-day entry
(recommendationAlgorithm.js lines 494-501). -/
def durationThreshold (days : ℕ) : ℚ :=
  if days = 1 then 500
  else if days = 2 then 1500
  else if days = 4 then 3000
  else if days = 7 then 6000
  else if days = 10 then 15000
  else 15000

/-- JavaScript `Math.min(...list)` on a possibly-empty list. -/
def minListNat : List ℕ → Option ℕ
  | [] => none
  | x :: xs => some (xs.foldl Nat.min x)

/-- Embedding of the distance sub-score computation
(recommendationAlgorithm.js lines 476-511), as a function of the already
computed great-circle distance `km` (the haversine output) and the user's
normalized duration labels. -/
def distanceScore (km : ℚ) (userTravelDurations : List String) : ℚ :=
  let baseDistanceScore := 1 / (1 + (km / 2000) ^ 2)
  let userDays := userTravelDurations.filterMap mapDurationToDays
  let penaltyMultiplier : ℚ :=
    match minListNat userDays with
    | none => 1
    | some minUserDays =>
      let relevantThreshold := durationThreshold minUserDays
      if relevantThreshold < km ∧ 0 < relevantThreshold then
        max (1 / 10) (relevantThreshold / km)
      else 1
  baseDistanceScore * penaltyMultiplier

/-- One scored destination as used by the hybrid ranking stage
(recommendationAlgorithm.js lines 530-546). -/
structure ScoredDest where
  id : String
  contentScore : ℚ
  collabScore : ℚ
  hybridScore : ℚ
deriving DecidableEq

/-- Steps 7-8 of `calculateRecommendations` (lines 530-536): collaborative
lookup with default 0 and the hybrid blend with ratings-dependent weights. -/
def scoreHybrid (hasRatings : Bool) (collabScores : List (String × ℚ))
    (id : String) (contentScore : ℚ) : ScoredDest :=
  let collabScore := (assocFind id collabScores).getD 0
  let contentWeight : ℚ := if hasRatings then 0.7 else 1.0
  let collabWeight : ℚ := if hasRatings then 0.3 else 0.0
  ⟨id, contentScore, collabScore,
   contentWeight * contentScore + collabWeight * collabScore⟩

/-- The ordering realized by the JavaScript comparator
`(b.hybridScore ?? 0) - (a.hybridScore ?? 0)`: descending hybrid score. -/
def hybridGE (a b : ScoredDest) : Prop := b.hybridScore ≤ a.hybridScore

instance : DecidableRel hybridGE :=
  fun a b => inferInstanceAs (Decidable (b.hybridScore ≤ a.hybridScore))

instance : IsTotal ScoredDest hybridGE :=
  ⟨fun a b => le_total b.hybridScore a.hybridScore⟩

instance : IsTrans ScoredDest hybridGE :=
  ⟨fun _ _ _ hab hbc => le_trans hbc hab⟩

/-- `hasRatings` of recommendationAlgorithm.js line 383: the ratings object
exists and has at least one entry. -/
def hasRatingsOf (p : UserPreferences) : Bool := !(ratingEntries p).isEmpty

/-- The post-processing stage (recommendationAlgorithm.js lines 542-577):
stable sort descending by hybrid score, take the top 3, and summarize each
as id plus confidence. -/
def rankAndSummarize (scored : List ScoredDest) : List (String × ℤ) :=
  ((scored.insertionSort hybridGE).take 3).map
    (fun d => (d.id, mapScoreToConfidence d.hybridScore))

/-- The dot-product / squared-magnitude accumulation of the
`cosineSimilarity` loop. -/
def sumProd (vecA vecB : List ℚ) : ℚ :=
  ((vecA.zip vecB).map (fun p => p.1 * p.2)).sum

/-- Embedding of `cosineSimilarity` (recommendationAlgorithm.js lines 17-42,
identically in contentFiltering.js lines 20-45).  The square roots force the
result into `ℝ`. -/
noncomputable def cosineSimilarity (vecA vecB : List ℚ) : ℝ :=
  if vecA.length ≠ vecB.length then 0
  else
    let dotProduct := sumProd vecA vecB
    let magnitudeA := Real.sqrt ((sumProd vecA vecA : ℚ) : ℝ)
    let magnitudeB := Real.sqrt ((sumProd vecB vecB : ℚ) : ℝ)
    if magnitudeA = 0 ∨ magnitudeB = 0 then 0
    else (dotProduct : ℝ) / (magnitudeA * magnitudeB)

/-- Example destination `A`: strong adventure, everything else neutral. -/
def exDestA : Destination :=
  { id := "A", culture := some 3, adventure := some 5, nature := some 3,
    beaches := some 3, nightlife := some 3, cuisine := some 3,
    wellness := some 3, urban := some 3, seclusion := some 3 }

/-- Example destination `B`: weak adventure, everything else neutral. -/
def exDestB : Destination :=
  { id := "B", culture := some 3, adventure := some 1, nature := some 3,
    beaches := some 3, nightlife := some 3, cuisine := some 3,
    wellness := some 3, urban := some 3, seclusion := some 3 }

/-- Example profile: all themes 3, one liked and one disliked destination. -/
def exProfile : UserPreferences :=
  { culture := some 3, adventure := some 3, nature := some 3, beaches := some 3,
    nightlife := some 3, cuisine := some 3, wellness := some 3, urban := some 3,
    seclusion := some 3,
    destinationRatings := some [("A", "like"), ("B", "dislike")] }

/-- Similarity structure for the end-to-end collaborative scenario: both
liked items have the unrated candidate `C` as a neighbour with weight 0.5. -/
def simC1 : SimilarityData :=
  [("A", [⟨"C", 1 / 2⟩]), ("B", [⟨"C", 1 / 2⟩])]

/-- Profile for the end-to-end collaborative scenario: exactly two likes. -/
def prefsC1 : UserPreferences :=
  { destinationRatings := some [("A", "like"), ("B", "like")] }

/-- Catalog for the end-to-end collaborative scenario: the two liked items
and the unrated candidate `C`. -/
def destsC1 : List Destination :=
  [{ id := "A" }, { id := "B" }, { id := "C" }]

/-- Modelled from the claim's words but with contentFiltering.js's weight
table (climate 0.15, region 0.25): weighted sum of the present sub-scores
divided by the sum of the present weights, 0 when none is present. -/
def contentScoreSpecCF (s : SubScores) : ℚ :=
  let entries := [((0.35 : ℚ), s.themeScore), (0.15, s.climateScore), (0.10, s.budgetScore),
                  (0.25, s.regionScore), (0.10, s.durationMatchScore), (0.05, s.distanceScore)]
  if 0 < specWeightTotal entries then specWeightedSum entries / specWeightTotal entries else 0

theorem foldl_pair_eq {α : Type} (f : ℚ × ℚ → α → ℚ × ℚ)
    (hf : ∀ acc x, acc.1 = acc.2 → (f acc x).1 = (f acc x).2) :
    ∀ (l : List α) (acc : ℚ × ℚ), acc.1 = acc.2 → (l.foldl f acc).1 = (l.foldl f acc).2 := by
  intro l
  induction l with
  | nil => intro acc h; exact h
  | cons x xs ih => intro acc h; exact ih _ (hf acc x h)

theorem collabPair_fst_eq_snd (sim : SimilarityData) (liked : List String)
    (candidateId : String) :
    (collabPair sim liked candidateId).1 = (collabPair sim liked candidateId).2 := by
  refine foldl_pair_eq _ ?_ liked (0, 0) rfl
  intro acc x h
  dsimp only
  split
  · simp [h]
  · exact h

theorem simC1_eval : calculateCollaborativeScores simC1 prefsC1 destsC1 = [("C", 1)] := by
  norm_num [calculateCollaborativeScores, likedIds, ratingEntries, prefsC1, simC1, destsC1,
    collabPair, assocFind, ratedIds, List.find?, List.filterMap, List.foldl, List.filter]
  decide

/-- C2: every value stored in the map returned by
`calculateCollaborativeScores` equals exactly 1 — the numerator and
denominator accumulate the same similarity sum, so every retained quotient
is 1, and candidates whose denominator stayed 0 never enter the map. -/
theorem collabValues_eq_one (sim : SimilarityData) (p : UserPreferences)
    (dests : List Destination) (e : String × ℚ)
    (he : e ∈ calculateCollaborativeScores sim p dests) : e.2 = 1 := by
  unfold calculateCollaborativeScores at he
  split at he
  · simp at he
  · split at he
    · simp at he
    · rw [List.mem_filterMap] at he
      obtain ⟨d, _, hsome⟩ := he
      by_cases hc : (ratedIds p).contains d.id
      · rw [if_pos hc] at hsome; cases hsome
      · rw [if_neg hc] at hsome
        dsimp only at hsome
        by_cases hden : 0 < (collabPair sim (likedIds p) d.id).2
        · rw [if_pos hden] at hsome
          have hone : (collabPair sim (likedIds p) d.id).1
              / (collabPair sim (likedIds p) d.id).2 = 1 := by
            rw [collabPair_fst_eq_snd]
            exact div_self (ne_of_gt hden)
          rw [hone] at hsome
          rw [if_pos (by norm_num)] at hsome
          cases hsome
          rfl
        · rw [if_neg hden] at hsome
          rw [if_neg (by norm_num)] at hsome
          cases hsome

/-- Witness for `collabValues_eq_one` at the end-to-end scenario. -/
theorem collabValues_eq_one_witness :
    (("C", (1 : ℚ)) ∈ calculateCollaborativeScores simC1 prefsC1 destsC1) ∧
    (("C", (1 : ℚ)) : String × ℚ).2 = 1 :=
  ⟨by rw [simC1_eval]; exact List.mem_singleton.mpr rfl,
   collabValues_eq_one simC1 prefsC1 destsC1 _
     (by rw [simC1_eval]; exact List.mem_singleton.mpr rfl)⟩

/-- C8: with a non-empty catalog, `calculateCollaborativeScores` returns the
empty map (and raises no error — it is total) whenever the similarity
structure is empty or the ratings contain no like entry (including absent or
empty `destinationRatings`). -/
theorem collabEmptyGuards_spec (sim : SimilarityData) (p : UserPreferences)
    (dests : List Destination) (_hne : dests ≠ [])
    (h : sim = [] ∨ likedIds p = []) :
    calculateCollaborativeScores sim p dests = [] := by
  rcases h with h | h <;> simp [calculateCollaborativeScores, h]

/-- Witness for `collabEmptyGuards_spec`. -/
theorem collabEmptyGuards_witness :
    (destsC1 ≠ []) ∧ calculateCollaborativeScores [] prefsC1 destsC1 = [] :=
  ⟨by decide, collabEmptyGuards_spec [] prefsC1 destsC1 (by decide) (Or.inl rfl)⟩

/-- C1 counterexample: in the two-likes/shared-neighbour-0.5 scenario the
code maps the candidate to 1, not 0.5, and the hybrid score is not
`0.7 × content + 0.3 × 0.5`. -/
theorem collabScenario_counterexample :
    assocFind "C" (calculateCollaborativeScores simC1 prefsC1 destsC1) ≠ some (1 / 2 : ℚ) ∧
    (scoreHybrid true (calculateCollaborativeScores simC1 prefsC1 destsC1) "C" 0).hybridScore
      ≠ 0.7 * 0 + 0.3 * (1 / 2 : ℚ) := by
  rw [simC1_eval]
  constructor
  · norm_num [assocFind, List.find?]
  · norm_num [scoreHybrid, assocFind, List.find?]

/-- C1 amended: in the scenario of the claim (two liked items, each with
similarity 0.5 to the unrated candidate) the candidate's collaborative score
is 1 (the sum/sum quotient), and with ratings present the hybrid score is
`0.7 × contentScore + 0.3 × 1`. -/
theorem collabScenario_amended (cont : ℚ) :
    assocFind "C" (calculateCollaborativeScores simC1 prefsC1 destsC1) = some 1 ∧
    (scoreHybrid true (calculateCollaborativeScores simC1 prefsC1 destsC1) "C" cont).hybridScore
      = 0.7 * cont + 0.3 * 1 := by
  rw [simC1_eval]
  refine ⟨by norm_num [assocFind, List.find?], ?_⟩
  norm_num [scoreHybrid, assocFind, List.find?]

theorem applyFeedback_analysis_ne_none (p : UserPreferences) (dests : List Destination) :
    (applyFeedbackAdjustments p dests).destinationAnalysis ≠ none := by
  by_cases h : (collectRatedFeatures p dests).1 ≠ [] ∨ (collectRatedFeatures p dests).2 ≠ [] <;>
    simp [applyFeedbackAdjustments, h]

/-- C3 counterexample: `calculateRecommendations` mutates the caller's
profile — a concrete profile with one liked destination comes back changed. -/
theorem profileMutation_counterexample :
    calculateRecommendationsPrefs exProfile [exDestA, exDestB] ≠ exProfile := by
  intro h
  have h2 := congrArg UserPreferences.destinationAnalysis h
  rw [calculateRecommendationsPrefs, if_neg (by simp)] at h2
  have h3 : exProfile.destinationAnalysis = none := rfl
  rw [h3] at h2
  exact applyFeedback_analysis_ne_none _ _ h2

/-- C3 amended: far from leaving the profile unchanged, the
feedback-adjustment step always writes the `destinationAnalysis` field, so
any profile without that field is mutated by a scoring pass over a non-empty
catalog. -/
theorem profileMutation_amended (p : UserPreferences) (dests : List Destination)
    (hne : dests ≠ []) (hna : p.destinationAnalysis = none) :
    calculateRecommendationsPrefs p dests ≠ p := by
  intro h
  have h2 := congrArg UserPreferences.destinationAnalysis h
  rw [calculateRecommendationsPrefs, if_neg (by simpa using hne)] at h2
  rw [hna] at h2
  exact applyFeedback_analysis_ne_none p dests h2

/-- Witness for `profileMutation_amended`. -/
theorem profileMutation_witness :
    (([exDestA] : List Destination) ≠ []) ∧ prefsC1.destinationAnalysis = none ∧
    calculateRecommendationsPrefs prefsC1 [exDestA] ≠ prefsC1 :=
  ⟨by decide, rfl, profileMutation_amended prefsC1 [exDestA] (by decide) rfl⟩

theorem blendLoop_eq_spec (entries : List (ℚ × Option ℚ)) :
    blendLoop entries =
      if 0 < specWeightTotal entries then specWeightedSum entries / specWeightTotal entries
      else 0 := by
  have key : ∀ (l : List (ℚ × Option ℚ)) (acc : ℚ × ℚ),
      l.foldl (fun acc e =>
        match e.2 with
        | some v => (acc.1 + e.1 * v, acc.2 + e.1)
        | none => acc) acc
        = (acc.1 + specWeightedSum l, acc.2 + specWeightTotal l) := by
    intro l
    induction l with
    | nil => intro acc; simp [specWeightedSum, specWeightTotal]
    | cons e l ih =>
      intro acc
      cases he : e.2 with
      | none =>
        simp only [List.foldl_cons, he]
        rw [ih]
        simp [specWeightedSum, specWeightTotal, List.filterMap_cons, he]
      | some v =>
        simp only [List.foldl_cons, he]
        rw [ih]
        simp only [specWeightedSum, specWeightTotal, List.filterMap_cons, he, Option.map_some',
          List.sum_cons, Prod.mk.injEq]
        refine ⟨by ring, by ring⟩
  unfold blendLoop
  rw [key]
  simp

/-- C4 counterexample: the content blend of contentFiltering.js disagrees
with the claimed weight table (climate 0.20, region 0.20) on a record with
only theme and region sub-scores present. -/
theorem contentWeights_counterexample :
    contentBlendCF { themeScore := some 1, regionScore := some 0.3 }
      ≠ contentScoreSpec { themeScore := some 1, regionScore := some 0.3 } := by
  norm_num [contentBlendCF, contentScoreSpec, blendLoop, specWeightedSum, specWeightTotal,
    List.filterMap, List.foldl]

/-- C4 amended: the blend of recommendationAlgorithm.js matches the claimed
formula exactly (weights theme 0.35, climate 0.20, budget 0.10, region 0.20,
durationMatch 0.10, distance 0.05, renormalized over the present sub-scores,
0 when none present); the blend of contentFiltering.js follows the same
formula but with climate 0.15 and region 0.25. -/
theorem contentWeights_amended :
    (∀ s : SubScores, contentBlendRA s = contentScoreSpec s) ∧
    (∀ s : SubScores, contentBlendCF s = contentScoreSpecCF s) ∧
    contentBlendRA {} = 0 := by
  refine ⟨fun s => ?_, fun s => ?_, by norm_num [contentBlendRA, blendLoop, List.foldl]⟩
  · simp only [contentBlendRA, contentScoreSpec]
    rw [blendLoop_eq_spec]
  · simp only [contentBlendCF, contentScoreSpecCF]
    rw [blendLoop_eq_spec]

theorem durationThreshold_pos (m : ℕ) : 0 < durationThreshold m := by
  unfold durationThreshold
  split_ifs <;> norm_num

/-- C9: with at least one mapped user duration, the distance sub-score is
the base decay `1/(1+(km/2000)^2)` times a penalty factor that is 1 for
`km ≤ threshold` (threshold from the day-count table) and
`max(0.1, threshold/km) < 1` for `km > threshold`. -/
theorem distancePenalty_spec (km : ℚ) (durations : List String) (m : ℕ)
    (hmin : minListNat (durations.filterMap mapDurationToDays) = some m) :
    (km ≤ durationThreshold m →
      distanceScore km durations = 1 / (1 + (km / 2000) ^ 2)) ∧
    (durationThreshold m < km →
      distanceScore km durations
        = (1 / (1 + (km / 2000) ^ 2)) * max (1 / 10) (durationThreshold m / km) ∧
      max (1 / 10 : ℚ) (durationThreshold m / km) < 1) := by
  have hpos : 0 < durationThreshold m := durationThreshold_pos m
  constructor
  · intro hle
    have hcond : ¬ (durationThreshold m < km ∧ 0 < durationThreshold m) :=
      fun hk => absurd hle (not_le.mpr hk.1)
    simp [distanceScore, hmin, hcond]
  · intro hlt
    have hcond : durationThreshold m < km ∧ 0 < durationThreshold m := ⟨hlt, hpos⟩
    refine ⟨by simp [distanceScore, hmin, hcond], ?_⟩
    have hkm : 0 < km := lt_trans hpos hlt
    exact max_lt (by norm_num) ((div_lt_one hkm).mpr hlt)

/-- Witness for `distancePenalty_spec` with a weekend trip at 3000 km. -/
theorem distancePenalty_witness :
    minListNat (["weekend"].filterMap mapDurationToDays) = some 2 ∧
    durationThreshold 2 < 3000 ∧
    (distanceScore 3000 ["weekend"]
        = (1 / (1 + ((3000 : ℚ) / 2000) ^ 2)) * max (1 / 10) (durationThreshold 2 / 3000) ∧
      max (1 / 10 : ℚ) (durationThreshold 2 / 3000) < 1) :=
  ⟨by decide, by norm_num [durationThreshold],
   (distancePenalty_spec 3000 ["weekend"] 2 (by decide)).2 (by norm_num [durationThreshold])⟩

theorem sumProd_self (v : List ℚ) : sumProd v v = (v.map (fun a => a * a)).sum := by
  induction v with
  | nil => rfl
  | cons a v ih =>
    simp only [sumProd, List.zip_cons_cons, List.map_cons, List.sum_cons] at ih ⊢
    rw [ih]

theorem sq_sum_nonneg (v : List ℚ) : 0 ≤ (v.map (fun a => a * a)).sum :=
  List.sum_nonneg (by
    intro x hx
    obtain ⟨a, _, rfl⟩ := List.mem_map.mp hx
    exact mul_self_nonneg a)

theorem sq_sum_pos (v : List ℚ) (h : ∃ x ∈ v, x ≠ 0) :
    0 < (v.map (fun a => a * a)).sum := by
  induction v with
  | nil => simp at h
  | cons a v ih =>
    simp only [List.map_cons, List.sum_cons]
    rcases h with ⟨x, hxv, hx⟩
    rcases List.mem_cons.mp hxv with rfl | hxv2
    · have h1 : 0 < x * x := mul_self_pos.mpr hx
      have h2 := sq_sum_nonneg v
      linarith
    · have h1 := ih ⟨x, hxv2, hx⟩
      have h2 := mul_self_nonneg a
      linarith

theorem sumProd_replicate (n : ℕ) :
    sumProd (List.replicate n 0) (List.replicate n 0) = 0 := by
  rw [sumProd_self]
  induction n with
  | zero => rfl
  | succ n ih => simp [List.replicate_succ, ih]

/-- C10: `cosineSimilarity v v = 1` for every vector with a non-zero entry;
it returns 0 on the all-zero vector (against anything), and returns 0
whenever the lengths mismatch or either squared magnitude is 0. -/
theorem cosineSimilarity_spec :
    (∀ v : List ℚ, (∃ x ∈ v, x ≠ 0) → cosineSimilarity v v = 1) ∧
    (∀ (n : ℕ) (v : List ℚ), cosineSimilarity (List.replicate n 0) v = 0) ∧
    (∀ vecA vecB : List ℚ,
      vecA.length ≠ vecB.length ∨ sumProd vecA vecA = 0 ∨ sumProd vecB vecB = 0 →
      cosineSimilarity vecA vecB = 0) := by
  refine ⟨?_, ?_, ?_⟩
  · intro v hv
    have hs : 0 < sumProd v v := by
      rw [sumProd_self]; exact sq_sum_pos v hv
    have hsr : (0 : ℝ) < ((sumProd v v : ℚ) : ℝ) := by exact_mod_cast hs
    have hsqrt : Real.sqrt ((sumProd v v : ℚ) : ℝ) ≠ 0 :=
      ne_of_gt (Real.sqrt_pos.mpr hsr)
    unfold cosineSimilarity
    rw [if_neg (by simp)]
    dsimp only
    rw [if_neg (by push_neg; exact ⟨hsqrt, hsqrt⟩)]
    rw [Real.mul_self_sqrt hsr.le]
    exact div_self (ne_of_gt hsr)
  · intro n v
    unfold cosineSimilarity
    by_cases hlen : (List.replicate n (0 : ℚ)).length ≠ v.length
    · rw [if_pos hlen]
    · rw [if_neg hlen]
      dsimp only
      rw [if_pos]
      left
      rw [sumProd_replicate n]
      simp
  · intro vecA vecB h
    unfold cosineSimilarity
    by_cases hlen : vecA.length ≠ vecB.length
    · rw [if_pos hlen]
    · rw [if_neg hlen]
      dsimp only
      rcases h with h | h | h
      · exact absurd h hlen
      · rw [if_pos]
        left
        rw [h]
        simp
      · rw [if_pos]
        right
        rw [h]
        simp

/-- Witness for `cosineSimilarity_spec`: a concrete non-zero vector scores 1
against itself, and a length mismatch scores 0. -/
theorem cosineSimilarity_witness :
    cosineSimilarity [1] [1] = 1 ∧ cosineSimilarity [1] [1, 2] = 0 :=
  ⟨cosineSimilarity_spec.1 [1] (by decide),
   cosineSimilarity_spec.2.2 [1] [1, 2] (Or.inl (by decide))⟩

theorem filter_hybrid_orderedInsert (q : ℚ) (a : ScoredDest) (l : List ScoredDest) :
    (l.orderedInsert hybridGE a).filter (fun d => d.hybridScore == q)
      = ((a :: l).filter (fun d => d.hybridScore == q)) := by
  induction l with
  | nil => rfl
  | cons b l ih =>
    by_cases hab : hybridGE a b
    · rw [List.orderedInsert, if_pos hab]
    · rw [List.orderedInsert, if_neg hab]
      have hlt : a.hybridScore < b.hybridScore := not_le.mp hab
      by_cases hbq : b.hybridScore = q
      · have haq : a.hybridScore ≠ q := by
          rw [← hbq]; exact ne_of_lt hlt
        simp [List.filter_cons, hbq, haq, ih]
      · simp [List.filter_cons, hbq, ih]

theorem filter_hybrid_insertionSort (q : ℚ) (l : List ScoredDest) :
    (l.insertionSort hybridGE).filter (fun d => d.hybridScore == q)
      = l.filter (fun d => d.hybridScore == q) := by
  induction l with
  | nil => rfl
  | cons a l ih =>
    rw [List.insertionSort, filter_hybrid_orderedInsert]
    simp [List.filter_cons, ih]

/-- C7: each scored item's hybrid score is
`contentWeight × contentScore + collabWeight × collabScore` with the
collaborative lookup defaulting to 0 and weights `(1.0, 0.0)` without
ratings, `(0.7, 0.3)` with; the summarized result has at most 3 entries, and
the sort is descending by hybrid score and stable (items of equal hybrid
score keep their catalog iteration order). -/
theorem hybridRanking_spec (hasRatings : Bool) (collab : List (String × ℚ))
    (contentScores : List (String × ℚ)) :
    (∀ s ∈ contentScores.map (fun e => scoreHybrid hasRatings collab e.1 e.2),
      s.hybridScore = (if hasRatings then (0.7 : ℚ) else 1.0) * s.contentScore
        + (if hasRatings then (0.3 : ℚ) else 0.0) * ((assocFind s.id collab).getD 0)) ∧
    (rankAndSummarize
        (contentScores.map (fun e => scoreHybrid hasRatings collab e.1 e.2))).length ≤ 3 ∧
    List.Sorted hybridGE
      ((contentScores.map (fun e => scoreHybrid hasRatings collab e.1 e.2)).insertionSort
        hybridGE) ∧
    (∀ q : ℚ,
      ((contentScores.map
            (fun e => scoreHybrid hasRatings collab e.1 e.2)).insertionSort hybridGE).filter
          (fun d => d.hybridScore == q)
        = (contentScores.map (fun e => scoreHybrid hasRatings collab e.1 e.2)).filter
            (fun d => d.hybridScore == q)) := by
  refine ⟨?_, ?_, List.sorted_insertionSort hybridGE _, fun q => filter_hybrid_insertionSort q _⟩
  · intro s hs
    obtain ⟨e, _, rfl⟩ := List.mem_map.mp hs
    simp [scoreHybrid]
  · rw [rankAndSummarize]
    simp only [List.length_map, List.length_take]
    exact min_le_left _ _

/-- Witness for `hybridRanking_spec` at a one-item catalog with ratings. -/
theorem hybridRanking_witness :
    (scoreHybrid true [("X", (1 : ℚ) / 2)] "X" 1
        ∈ ([("X", (1 : ℚ))]).map (fun e => scoreHybrid true [("X", (1 : ℚ) / 2)] e.1 e.2)) ∧
    (scoreHybrid true [("X", (1 : ℚ) / 2)] "X" 1).hybridScore
      = (if true then (0.7 : ℚ) else 1.0) * (scoreHybrid true [("X", (1 : ℚ) / 2)] "X" 1).contentScore
        + (if true then (0.3 : ℚ) else 0.0)
          * ((assocFind (scoreHybrid true [("X", (1 : ℚ) / 2)] "X" 1).id [("X", (1 : ℚ) / 2)]).getD 0) :=
  ⟨List.mem_map.mpr ⟨("X", 1), List.mem_singleton.mpr rfl, rfl⟩,
   (hybridRanking_spec true [("X", (1 : ℚ) / 2)] [("X", (1 : ℚ))]).1 _
     (List.mem_map.mpr ⟨("X", 1), List.mem_singleton.mpr rfl, rfl⟩)⟩

theorem clamp1to5_eq_self {x : ℚ} (h1 : 1 ≤ x) (h5 : x ≤ 5) : clamp1to5 x = x := by
  unfold clamp1to5
  rw [min_eq_right h5, max_eq_right h1]

theorem collectRatedFeatures_ex :
    collectRatedFeatures exProfile [exDestA, exDestB]
      = ([[3, 5, 3, 3, 3, 3, 3, 3, 3]], [[3, 1, 3, 3, 3, 3, 3, 3, 3]]) := by
  norm_num [collectRatedFeatures, ratingEntries, exProfile, exDestA, exDestB, destFeatures,
    List.find?, List.foldl]
  decide

theorem normalizedAdjustments_ex :
    normalizedAdjustments exProfile [exDestA, exDestB] = [0, 4, 0, 0, 0, 0, 0, 0, 0] := by
  unfold normalizedAdjustments
  rw [collectRatedFeatures_ex]
  norm_num [averageVector, List.replicate_succ, List.zipWith, normalizeDelta]

/-- C6: dimension-wise, the adjusted theme vector is the base vector plus
the ceiling-normalized delta (liked mean minus disliked mean, zero vector
for an empty side), clamped to [1,5]; and in the concrete scenario of one
liked item with adventure 5, one disliked item with adventure 1 and base
adventure 3, the adjusted adventure value is greater than 3 and at most 5. -/
theorem feedbackAdjustment_spec :
    (∀ (p : UserPreferences) (dests : List Destination) (i : ℕ),
      (∀ x ∈ themeVector p, 1 ≤ x ∧ x ≤ 5) → i < 9 →
      (themeVector (applyFeedbackAdjustments p dests)).getD i 0
        = clamp1to5 ((themeVector p).getD i 0 + (normalizedAdjustments p dests).getD i 0)) ∧
    (3 < (applyFeedbackAdjustments exProfile [exDestA, exDestB]).adventure.getD 0 ∧
      (applyFeedbackAdjustments exProfile [exDestA, exDestB]).adventure.getD 0 ≤ 5) := by
  constructor
  · intro p dests i hb hi
    by_cases hft : (collectRatedFeatures p dests).1 ≠ [] ∨ (collectRatedFeatures p dests).2 ≠ []
    · have heq : applyFeedbackAdjustments p dests =
          { p with
            destinationAnalysis := some (some (normalizedAdjustments p dests))
            culture := some (clamp1to5 (p.culture.getD 0 + (normalizedAdjustments p dests).getD 0 0))
            adventure := some (clamp1to5 (p.adventure.getD 0 + (normalizedAdjustments p dests).getD 1 0))
            nature := some (clamp1to5 (p.nature.getD 0 + (normalizedAdjustments p dests).getD 2 0))
            beaches := some (clamp1to5 (p.beaches.getD 0 + (normalizedAdjustments p dests).getD 3 0))
            nightlife := some (clamp1to5 (p.nightlife.getD 0 + (normalizedAdjustments p dests).getD 4 0))
            cuisine := some (clamp1to5 (p.cuisine.getD 0 + (normalizedAdjustments p dests).getD 5 0))
            wellness := some (clamp1to5 (p.wellness.getD 0 + (normalizedAdjustments p dests).getD 6 0))
            urban := some (clamp1to5 (p.urban.getD 0 + (normalizedAdjustments p dests).getD 7 0))
            seclusion := some (clamp1to5 (p.seclusion.getD 0 + (normalizedAdjustments p dests).getD 8 0)) } := by
        simp only [applyFeedbackAdjustments]
        rw [if_pos hft]
      rw [heq]
      interval_cases i <;> simp [themeVector]
    · rcases not_or.mp hft with ⟨h1, h2⟩
      have hcf : collectRatedFeatures p dests = ([], []) := by
        rw [Prod.ext_iff]
        exact ⟨not_ne_iff.mp h1, not_ne_iff.mp h2⟩
      have hadj : normalizedAdjustments p dests = List.replicate 9 0 := by
        unfold normalizedAdjustments
        rw [hcf]
        norm_num [averageVector, List.replicate_succ, List.zipWith, normalizeDelta]
      have heq : applyFeedbackAdjustments p dests = { p with destinationAnalysis := some none } := by
        simp only [applyFeedbackAdjustments]
        rw [if_neg hft]
      have hself : ∀ x ∈ themeVector p, clamp1to5 x = x := fun x hx =>
        clamp1to5_eq_self (hb x hx).1 (hb x hx).2
      rw [heq, hadj]
      interval_cases i <;>
        · simp [themeVector, List.replicate]
          exact (hself _ (by simp [themeVector])).symm
  · have hft : (collectRatedFeatures exProfile [exDestA, exDestB]).1 ≠ [] ∨
        (collectRatedFeatures exProfile [exDestA, exDestB]).2 ≠ [] := by
      rw [collectRatedFeatures_ex]
      left
      simp
    have heq : (applyFeedbackAdjustments exProfile [exDestA, exDestB]).adventure
        = some (clamp1to5 ((exProfile.adventure.getD 0)
            + (normalizedAdjustments exProfile [exDestA, exDestB]).getD 1 0)) := by
      simp only [applyFeedbackAdjustments]
      rw [if_pos hft]
    rw [heq, normalizedAdjustments_ex]
    norm_num [exProfile, clamp1to5]

/-- Witness for `feedbackAdjustment_spec`, instantiating the general
dimension-wise law at the concrete scenario in its adventure dimension. -/
theorem feedbackAdjustment_witness :
    (∀ x ∈ themeVector exProfile, 1 ≤ x ∧ x ≤ 5) ∧ 1 < 9 ∧
    (themeVector (applyFeedbackAdjustments exProfile [exDestA, exDestB])).getD 1 0
      = clamp1to5 ((themeVector exProfile).getD 1 0
          + (normalizedAdjustments exProfile [exDestA, exDestB]).getD 1 0) :=
  ⟨by
    have htv : themeVector exProfile = [3, 3, 3, 3, 3, 3, 3, 3, 3] := by decide
    rw [htv]
    intro x hx
    simp at hx
    subst hx
    norm_num,
   by norm_num,
   feedbackAdjustment_spec.1 exProfile [exDestA, exDestB] 1
     (by
      have htv : themeVector exProfile = [3, 3, 3, 3, 3, 3, 3, 3, 3] := by decide
      rw [htv]
      intro x hx
      simp at hx
      subst hx
      norm_num)
     (by norm_num)⟩

theorem jsRound_le {x : ℚ} {n : ℤ} (h : x + 1 / 2 < n + 1) : jsRound x ≤ n := by
  have h2 : ⌊x + 1 / 2⌋ < n + 1 := Int.floor_lt.mpr (by push_cast; linarith)
  unfold jsRound
  omega

theorem le_jsRound {x : ℚ} {n : ℤ} (h : (n : ℚ) ≤ x + 1 / 2) : n ≤ jsRound x :=
  Int.le_floor.mpr h

theorem jsRound_mono {x y : ℚ} (h : x ≤ y) : jsRound x ≤ jsRound y :=
  Int.floor_mono (by linarith)

theorem band1_bounds {s : ℚ} (h8 : 0.80 ≤ s) (h1 : s ≤ 1) :
    90 ≤ jsRound (90 + 10 * (s - 0.80) / 0.20) ∧
    jsRound (90 + 10 * (s - 0.80) / 0.20) ≤ 100 := by
  have e : 90 + 10 * (s - 0.80) / 0.20 = 50 * s + 50 := by ring
  rw [e]
  exact ⟨le_jsRound (by push_cast; linarith), jsRound_le (by push_cast; linarith)⟩

theorem band2_bounds {s : ℚ} (h6 : 0.60 ≤ s) (h8 : s < 0.80) :
    70 ≤ jsRound (70 + 19 * (s - 0.60) / 0.20) ∧
    jsRound (70 + 19 * (s - 0.60) / 0.20) ≤ 89 := by
  have e : 70 + 19 * (s - 0.60) / 0.20 = 95 * s + 13 := by ring
  rw [e]
  exact ⟨le_jsRound (by push_cast; linarith), jsRound_le (by push_cast; linarith)⟩

theorem band3_bounds {s : ℚ} (h4 : 0.40 ≤ s) (h6 : s < 0.60) :
    50 ≤ jsRound (50 + 19 * (s - 0.40) / 0.20) ∧
    jsRound (50 + 19 * (s - 0.40) / 0.20) ≤ 69 := by
  have e : 50 + 19 * (s - 0.40) / 0.20 = 95 * s + 12 := by ring
  rw [e]
  exact ⟨le_jsRound (by push_cast; linarith), jsRound_le (by push_cast; linarith)⟩

theorem band4_bounds {s : ℚ} (h0 : 0 ≤ s) (h4 : s < 0.40) :
    0 ≤ jsRound (49 * s / 0.40) ∧ jsRound (49 * s / 0.40) ≤ 49 := by
  have e : 49 * s / 0.40 = 245 / 2 * s := by ring
  rw [e]
  exact ⟨le_jsRound (by push_cast; linarith), jsRound_le (by push_cast; linarith)⟩

theorem clamp01_nonneg (x : ℚ) : 0 ≤ max 0 (min 1 x) := le_max_left 0 _

theorem clamp01_le_one (x : ℚ) : max 0 (min 1 x) ≤ 1 :=
  max_le (by norm_num) (min_le_left 1 x)

theorem clamp01_mono {x y : ℚ} (h : x ≤ y) : max 0 (min 1 x) ≤ max 0 (min 1 y) :=
  max_le_max le_rfl (min_le_min le_rfl h)

theorem conf_range (score : ℚ) :
    0 ≤ mapScoreToConfidence score ∧ mapScoreToConfidence score ≤ 100 := by
  have h0 := clamp01_nonneg score
  have h1 := clamp01_le_one score
  simp only [mapScoreToConfidence]
  set s := max 0 (min 1 score) with hs
  split_ifs with h80 h60 h40
  · have hb := band1_bounds h80 h1
    exact ⟨le_trans (by norm_num) hb.1, hb.2⟩
  · have hb := band2_bounds h60 (not_le.mp h80)
    exact ⟨le_trans (by norm_num) hb.1, le_trans hb.2 (by norm_num)⟩
  · have hb := band3_bounds h40 (not_le.mp h60)
    exact ⟨le_trans (by norm_num) hb.1, le_trans hb.2 (by norm_num)⟩
  · have hb := band4_bounds h0 (not_le.mp h40)
    exact ⟨hb.1, le_trans hb.2 (by norm_num)⟩

theorem conf_mono {x y : ℚ} (hxy : x ≤ y) :
    mapScoreToConfidence x ≤ mapScoreToConfidence y := by
  have hsx0 := clamp01_nonneg x
  have hsx1 := clamp01_le_one x
  have hsy0 := clamp01_nonneg y
  have hsy1 := clamp01_le_one y
  have hss := clamp01_mono hxy
  simp only [mapScoreToConfidence]
  set sx := max 0 (min 1 x) with hsx
  set sy := max 0 (min 1 y) with hsy
  rcases le_or_lt 0.80 sx with hx80 | hx80
  · have hy80 : (0.80 : ℚ) ≤ sy := le_trans hx80 hss
    rw [if_pos hx80, if_pos hy80]
    apply jsRound_mono
    have e : ∀ t : ℚ, 90 + 10 * (t - 0.80) / 0.20 = 50 * t + 50 := fun t => by ring
    rw [e, e]
    linarith
  · rcases le_or_lt 0.60 sx with hx60 | hx60
    · rw [if_neg (not_le.mpr hx80), if_pos hx60]
      rcases le_or_lt 0.80 sy with hy80 | hy80
      · rw [if_pos hy80]
        exact le_trans (band2_bounds hx60 hx80).2
          (le_trans (by norm_num) (band1_bounds hy80 hsy1).1)
      · have hy60 : (0.60 : ℚ) ≤ sy := le_trans hx60 hss
        rw [if_neg (not_le.mpr hy80), if_pos hy60]
        apply jsRound_mono
        have e : ∀ t : ℚ, 70 + 19 * (t - 0.60) / 0.20 = 95 * t + 13 := fun t => by ring
        rw [e, e]
        linarith
    · rcases le_or_lt 0.40 sx with hx40 | hx40
      · rw [if_neg (not_le.mpr hx80), if_neg (not_le.mpr hx60), if_pos hx40]
        rcases le_or_lt 0.80 sy with hy80 | hy80
        · rw [if_pos hy80]
          exact le_trans (band3_bounds hx40 hx60).2
            (le_trans (by norm_num) (band1_bounds hy80 hsy1).1)
        · rcases le_or_lt 0.60 sy with hy60 | hy60
          · rw [if_neg (not_le.mpr hy80), if_pos hy60]
            exact le_trans (band3_bounds hx40 hx60).2
              (le_trans (by norm_num) (band2_bounds hy60 hy80).1)
          · have hy40 : (0.40 : ℚ) ≤ sy := le_trans hx40 hss
            rw [if_neg (not_le.mpr hy80), if_neg (not_le.mpr hy60), if_pos hy40]
            apply jsRound_mono
            have e : ∀ t : ℚ, 50 + 19 * (t - 0.40) / 0.20 = 95 * t + 12 := fun t => by ring
            rw [e, e]
            linarith
      · rw [if_neg (not_le.mpr hx80), if_neg (not_le.mpr hx60), if_neg (not_le.mpr hx40)]
        rcases le_or_lt 0.80 sy with hy80 | hy80
        · rw [if_pos hy80]
          exact le_trans (band4_bounds hsx0 hx40).2
            (le_trans (by norm_num) (band1_bounds hy80 hsy1).1)
        · rcases le_or_lt 0.60 sy with hy60 | hy60
          · rw [if_neg (not_le.mpr hy80), if_pos hy60]
            exact le_trans (band4_bounds hsx0 hx40).2
              (le_trans (by norm_num) (band2_bounds hy60 hy80).1)
          · rcases le_or_lt 0.40 sy with hy40 | hy40
            · rw [if_neg (not_le.mpr hy80), if_neg (not_le.mpr hy60), if_pos hy40]
              exact le_trans (band4_bounds hsx0 hx40).2
                (le_trans (by norm_num) (band3_bounds hy40 hy60).1)
            · rw [if_neg (not_le.mpr hy80), if_neg (not_le.mpr hy60), if_neg (not_le.mpr hy40)]
              apply jsRound_mono
              have e : ∀ t : ℚ, 49 * t / 0.40 = 245 / 2 * t := fun t => by ring
              rw [e, e]
              linarith

/-- C5: `mapScoreToConfidence` always lands in [0,100], maps 0 to 0 and 1 to
100, and is monotonically non-decreasing in the score. -/
theorem confidenceMapping_spec :
    (∀ score : ℚ, 0 ≤ mapScoreToConfidence score ∧ mapScoreToConfidence score ≤ 100) ∧
    mapScoreToConfidence 0 = 0 ∧
    mapScoreToConfidence 1 = 100 ∧
    (∀ x y : ℚ, x ≤ y → mapScoreToConfidence x ≤ mapScoreToConfidence y) :=
  ⟨conf_range,
   by norm_num [mapScoreToConfidence, jsRound],
   by norm_num [mapScoreToConfidence, jsRound],
   fun _ _ h => conf_mono h⟩

/-- Witness for `confidenceMapping_spec`, applying the monotonicity clause
at 1/4 ≤ 3/4. -/
theorem confidenceMapping_witness :
    ((1 : ℚ) / 4 ≤ 3 / 4) ∧ mapScoreToConfidence (1 / 4) ≤ mapScoreToConfidence (3 / 4) :=
  ⟨by norm_num, confidenceMapping_spec.2.2.2 (1 / 4) (3 / 4) (by norm_num)⟩
